import Mathlib

/-!
Verification development for the `ytt` YouTube-transcript library
(`src/lib.rs`).  The Rust code is shallowly embedded: `HashMap` becomes an
association list with first-match lookup, `serde_json::Value` becomes the
inductive `Json`, fallible functions return `Except TranscriptError`, and
the Rust string primitives `contains`, `starts_with`, `replace` and `len`
(UTF-8 bytes) are implemented at the character level.  External lookup
tables and parsers are abstracted as parameters: `extract_video_id` takes
the Unicode character classifications (`char::is_alphanumeric`,
`char::is_whitespace`) and the `url` crate parse function as arguments,
theorems about it quantify over them, and concrete instantiations record
what those primitives return on the specific (ASCII) inputs used.
-/

/-- The error enum of the crate (module `error`, variant payloads read off
from the construction sites in `src/lib.rs`). -/
inductive TranscriptError where
  | invalidVideoId (msg : String)
  | httpError (msg : String)
  | ipBlocked (videoId : String)
  | failedToCreateConsentCookie (videoId : String)
  | youTubeDataUnparsable (videoId : String)
  | jsonParseError (msg : String)
  | xmlParseError (msg : String)
  | requestBlocked (videoId : String)
  | ageRestricted (videoId : String)
  | videoUnavailable (videoId : String)
  | videoUnplayable (videoId : String) (reason : String)
  | transcriptsDisabled (videoId : String)
  | noTranscriptFound (videoId : String) (languageCodes : List String)
  | notTranslatable (videoId : String)
  | translationLanguageNotAvailable (language : String)
  | poTokenRequired (videoId : String)
deriving Repr, DecidableEq

/-- `TranslationLanguage` struct of `src/lib.rs`. -/
structure TranslationLanguage where
  language : String
  language_code : String
deriving Repr, DecidableEq

/-- `TranscriptInfo` struct of `src/lib.rs`. -/
structure TranscriptInfo where
  language_code : String
  language : String
  is_generated : Bool
  is_translatable : Bool
  base_url : String
  translation_languages : List TranslationLanguage
deriving Repr, DecidableEq

/-- `TranscriptList` struct of `src/lib.rs`; the two `HashMap`s are
association lists looked up with `List.lookup` (first match). -/
structure TranscriptList where
  video_id : String
  manually_created : List (String × TranscriptInfo)
  generated : List (String × TranscriptInfo)
  translation_languages : List TranslationLanguage
deriving Repr, DecidableEq

/-- Substring search: does `pat` occur as a contiguous run inside `s`? -/
def hasSublist (pat : List Char) : List Char → Bool
  | [] => pat.isEmpty
  | c :: t => pat.isPrefixOf (c :: t) || hasSublist pat t

/-- Rust `str::contains(pattern)`: substring test. -/
def rustContains (s pat : String) : Bool :=
  hasSublist pat.data s.data

/-- Rust `str::starts_with(pattern)`. -/
def rustStartsWith (s pre : String) : Bool :=
  List.isPrefixOf pre.data s.data

/-- Replace every (leftmost, non-overlapping) occurrence of `pat` by
`rep`; the fuel argument only makes the recursion structural and is
always called with the input length, which suffices because each step
consumes at least one character. -/
def replaceAllAux (pat rep : List Char) : Nat → List Char → List Char
  | _, [] => []
  | 0, s => s
  | fuel + 1, c :: t =>
    if pat.isPrefixOf (c :: t) && !pat.isEmpty then
      rep ++ replaceAllAux pat rep fuel (List.drop pat.length (c :: t))
    else
      c :: replaceAllAux pat rep fuel t

/-- Rust `str::replace(pat, rep)` for a non-empty pattern (the one use in
the code has the fixed pattern `&fmt=srv3`); an empty pattern is the
identity here. -/
def rustReplace (s pat rep : String) : String :=
  if pat.data.isEmpty then s
  else ⟨replaceAllAux pat.data rep.data s.data.length s.data⟩

/-- Rust `str::trim()`: strip whitespace from both ends.  Rust classifies
whitespace with the Unicode White_Space table of `char::is_whitespace`, an
external character-class primitive, so the predicate is a parameter here;
every theorem below quantifies over it (or instantiates it on inputs
where the Unicode table is known). -/
def rustTrim (ws : Char → Bool) (s : String) : String :=
  ⟨(((s.data.dropWhile ws).reverse.dropWhile ws).reverse)⟩

/-- The character test of `extract_video_id`:
`c.is_alphanumeric() || c == '-' || c == '_'`.  Rust classifies
alphanumerics with the Unicode tables of `char::is_alphanumeric`, an
external character-class primitive, so that predicate is a parameter. -/
def isValidIdChar (alnum : Char → Bool) (c : Char) : Bool :=
  alnum c || c == '-' || c == '_'

/-- The repeated validity check of `extract_video_id`:
`input.len() == 11` — Rust `str::len` counts UTF-8 BYTES — and every
character alphanumeric, `-` or `_`. -/
def isValidId11 (alnum : Char → Bool) (s : String) : Bool :=
  s.utf8ByteSize == 11 && s.data.all (isValidIdChar alnum)

/-- The character class `[A-Za-z0-9_-]` named by the specification.  On
characters of this class the Rust Unicode primitives are known:
`char::is_alphanumeric` is true exactly on the alphanumeric ones and
`char::is_whitespace` is false on all of them. -/
def asciiIdChar (c : Char) : Bool :=
  c.isAlphanum || c == '-' || c == '_'

/-- The specification notion of an acceptable bare id: exactly 11
characters, each in `[A-Za-z0-9_-]` (for such ASCII strings, character
count and UTF-8 byte count agree). -/
def asciiId11 (s : String) : Bool :=
  s.length == 11 && s.data.all asciiIdChar

/-- The restriction of Rust `char::is_alphanumeric` to ASCII.  The
Unicode predicate agrees with this one on every ASCII character, so
instantiating the `alnum` parameter with it reproduces the program
exactly on all-ASCII inputs (all concrete inputs below are ASCII). -/
def asciiAlnum : Char → Bool := Char.isAlphanum

/-- The restriction of Rust `char::is_whitespace` to ASCII, with the same
agreement on ASCII characters as `asciiAlnum`. -/
def asciiWs : Char → Bool := Char.isWhitespace

/-- The scan of `TranscriptList::find_transcript` (lines 56-63): for each
candidate code in order, the manually created map, then the generated map. -/
def firstLookup2 (mc gen : List (String × TranscriptInfo)) :
    List String → Option TranscriptInfo
  | [] => none
  | c :: rest =>
    match mc.lookup c with
    | some t => some t
    | none =>
      match gen.lookup c with
      | some t => some t
      | none => firstLookup2 mc gen rest

/-- The scan of `find_manually_created` / `find_generated`: candidates in
order against one map. -/
def firstLookup1 (m : List (String × TranscriptInfo)) :
    List String → Option TranscriptInfo
  | [] => none
  | c :: rest =>
    match m.lookup c with
    | some t => some t
    | none => firstLookup1 m rest

/-- `TranscriptList::find_transcript` of `src/lib.rs`. -/
def TranscriptList.find_transcript (self : TranscriptList)
    (language_codes : List String) : Except TranscriptError TranscriptInfo :=
  match firstLookup2 self.manually_created self.generated language_codes with
  | some t => .ok t
  | none => .error (.noTranscriptFound self.video_id language_codes)

/-- `TranscriptList::find_manually_created` of `src/lib.rs`. -/
def TranscriptList.find_manually_created (self : TranscriptList)
    (language_codes : List String) : Except TranscriptError TranscriptInfo :=
  match firstLookup1 self.manually_created language_codes with
  | some t => .ok t
  | none => .error (.noTranscriptFound self.video_id language_codes)

/-- `TranscriptList::find_generated` of `src/lib.rs`. -/
def TranscriptList.find_generated (self : TranscriptList)
    (language_codes : List String) : Except TranscriptError TranscriptInfo :=
  match firstLookup1 self.generated language_codes with
  | some t => .ok t
  | none => .error (.noTranscriptFound self.video_id language_codes)

/-- `fetch_transcript` track selection (lines 244-245): default the
language preference to `["en"]`, then `find_transcript`. -/
def fetchTranscriptSelect (list : TranscriptList)
    (languages : Option (List String)) : Except TranscriptError TranscriptInfo :=
  let langs := languages.getD ["en"]
  list.find_transcript langs

/-- The pure gate of `translate_transcript` (lines 259-277): find the
source track, require translatability, require the target among the
translation languages, then hand `(track, some target)` to the fetch. -/
def translateTranscriptSelect (video_id : String) (list : TranscriptList)
    (source_languages : List String) (target_language : String) :
    Except TranscriptError (TranscriptInfo × Option String) :=
  match list.find_transcript source_languages with
  | .error e => .error e
  | .ok source =>
    if !source.is_translatable then
      .error (.notTranslatable video_id)
    else if !(source.translation_languages.any
        (fun t => t.language_code == target_language)) then
      .error (.translationLanguageNotAvailable target_language)
    else
      .ok (source, some target_language)

/-- Model of `serde_json::Value`; objects are association lists of fields. -/
inductive Json where
  | null
  | bool (b : Bool)
  | num (n : Int)
  | str (s : String)
  | arr (elems : List Json)
  | obj (fields : List (String × Json))

/-- `Value::get(key)` on objects (first field with the key). -/
def Json.getKey : Json → String → Option Json
  | .obj fields, key => fields.lookup key
  | _, _ => none

/-- `Value::as_str()`. -/
def Json.asStr : Json → Option String
  | .str s => some s
  | _ => none

/-- `Value::as_bool()`. -/
def Json.asBool : Json → Option Bool
  | .bool b => some b
  | _ => none

/-- `Value::as_array()`. -/
def Json.asArr : Json → Option (List Json)
  | .arr elems => some elems
  | _ => none

/-- The bot-challenge phrase of line 526 (apostrophe spelled via its code
point). -/
def botPhrase : String :=
  "Sign in to confirm you" ++ String.singleton (Char.ofNat 39) ++ "re not a bot"

/-- The age-restriction phrase of line 529. -/
def agePhrase : String := "inappropriate for some users"

/-- `YouTubeTranscript::assert_playability` of `src/lib.rs` (lines
504-548), embedded branch for branch. -/
def assert_playability (video_id : String) (innertube_data : Json) :
    Except TranscriptError Unit :=
  match innertube_data.getKey "playabilityStatus" with
  | none => .ok ()
  | some ps =>
    let status := (((ps.getKey "status").bind Json.asStr)).getD ""
    if status == "OK" then .ok ()
    else
      let reason := (((ps.getKey "reason").bind Json.asStr)).getD ""
      match status with
      | "LOGIN_REQUIRED" =>
        if rustContains reason botPhrase then
          .error (.requestBlocked video_id)
        else if rustContains reason agePhrase then
          .error (.ageRestricted video_id)
        else .error (.videoUnplayable video_id reason)
      | "ERROR" =>
        if rustContains reason "unavailable" then
          if rustStartsWith video_id "http://" || rustStartsWith video_id "https://" then
            .error (.invalidVideoId video_id)
          else
            .error (.videoUnavailable video_id)
        else .error (.videoUnplayable video_id reason)
      | _ => .error (.videoUnplayable video_id reason)

/-- The playability mapping exactly as the specification words it
(section 4.3): an if-chain read top to bottom.  Written from the spec, to
be compared with `assert_playability`, which is written from the code. -/
def playabilityGateSpec (video_id : String) (innertube_data : Json) :
    Except TranscriptError Unit :=
  match innertube_data.getKey "playabilityStatus" with
  | none => .ok ()
  | some ps =>
    let status := (((ps.getKey "status").bind Json.asStr)).getD ""
    let reason := (((ps.getKey "reason").bind Json.asStr)).getD ""
    if status == "OK" then .ok ()
    else if status == "LOGIN_REQUIRED" && rustContains reason botPhrase then
      .error (.requestBlocked video_id)
    else if status == "LOGIN_REQUIRED" && rustContains reason agePhrase then
      .error (.ageRestricted video_id)
    else if status == "ERROR" && rustContains reason "unavailable" then
      if rustStartsWith video_id "http://" || rustStartsWith video_id "https://" then
        .error (.invalidVideoId video_id)
      else
        .error (.videoUnavailable video_id)
    else .error (.videoUnplayable video_id reason)

/-- Extraction of one entry of `translationLanguages` (lines 411-425):
language code and first display-name run both required. -/
def parseTranslationLanguage (lang : Json) : Option TranslationLanguage :=
  match (lang.getKey "languageCode").bind Json.asStr with
  | none => none
  | some language_code =>
    match ((((lang.getKey "languageName").bind
        (fun n => n.getKey "runs")).bind Json.asArr).bind List.head?) with
    | none => none
    | some run =>
      match (run.getKey "text").bind Json.asStr with
      | none => none
      | some language => some ⟨language, language_code⟩

/-- The catalog-wide translation-language list (lines 406-428). -/
def extractTranslationLanguages (captions_json : Json) : List TranslationLanguage :=
  ((((captions_json.getKey "translationLanguages").bind Json.asArr).map
    (fun arr => arr.filterMap parseTranslationLanguage))).getD []

/-- One iteration of the caption-track loop (lines 437-489): entries
missing `languageCode` or `baseUrl` are skipped, `&fmt=srv3` is stripped,
the display name falls back to the code, `kind == \x22asr\x22` marks the track
generated, and only translatable tracks carry the translation list. -/
def parseCaptionTrack (translation_languages : List TranslationLanguage)
    (caption : Json) : Option TranscriptInfo :=
  match (caption.getKey "languageCode").bind Json.asStr with
  | none => none
  | some language_code =>
    match (caption.getKey "baseUrl").bind Json.asStr with
    | none => none
    | some url =>
      let base_url := rustReplace url "&fmt=srv3" ""
      let language :=
        ((((((caption.getKey "name").bind (fun n => n.getKey "runs")).bind
          Json.asArr).bind List.head?).bind
          (fun r => r.getKey "text")).bind Json.asStr).getD language_code
      let is_generated :=
        (((caption.getKey "kind").bind Json.asStr).map (fun k => k == "asr")).getD false
      let is_translatable :=
        ((caption.getKey "isTranslatable").bind Json.asBool).getD false
      let tls := if is_translatable then translation_languages else []
      some ⟨language_code, language, is_generated, is_translatable, base_url, tls⟩

/-- `HashMap::insert`: overwrite any existing entry for the key. -/
def insertMap (m : List (String × TranscriptInfo)) (k : String)
    (v : TranscriptInfo) : List (String × TranscriptInfo) :=
  (k, v) :: m.filter (fun p => !(p.1 == k))

/-- One loop iteration over the accumulated `(manually_created, generated)`
pair: skipped entries leave the maps alone, others are inserted into the
map selected by the generated flag (lines 484-489). -/
def trackStep (translation_languages : List TranslationLanguage)
    (maps : List (String × TranscriptInfo) × List (String × TranscriptInfo))
    (caption : Json) :
    List (String × TranscriptInfo) × List (String × TranscriptInfo) :=
  match parseCaptionTrack translation_languages caption with
  | none => maps
  | some info =>
    if info.is_generated then (maps.1, insertMap maps.2 info.language_code info)
    else (insertMap maps.1 info.language_code info, maps.2)

/-- The caption-track loop folded over the track array, building the
manually created and generated maps (lines 430-490). -/
def buildTrackMaps (translation_languages : List TranslationLanguage)
    (tracks : List Json) :
    List (String × TranscriptInfo) × List (String × TranscriptInfo) :=
  tracks.foldl (trackStep translation_languages) ([], [])

/-- The `captions.playerCaptionsTracklistRenderer` node (lines 395-397). -/
def captionsRenderer (innertube_data : Json) : Option Json :=
  (innertube_data.getKey "captions").bind
    (fun c => c.getKey "playerCaptionsTracklistRenderer")

/-- The `captionTracks` array of the renderer node, empty when missing
(lines 433-436). -/
def captionTracksOf (captions_json : Json) : List Json :=
  ((captions_json.getKey "captionTracks").bind Json.asArr).getD []

/-- `YouTubeTranscript::extract_captions_json` of `src/lib.rs` (lines
387-502): playability gate, captions node, translation languages, track
loop, and the final emptiness check. -/
def extract_captions_json (video_id : String) (innertube_data : Json) :
    Except TranscriptError TranscriptList :=
  match assert_playability video_id innertube_data with
  | .error e => .error e
  | .ok _ =>
    match captionsRenderer innertube_data with
    | none => .error (.transcriptsDisabled video_id)
    | some captions_json =>
      let translation_languages := extractTranslationLanguages captions_json
      let maps := buildTrackMaps translation_languages (captionTracksOf captions_json)
      if maps.1.isEmpty && maps.2.isEmpty then
        .error (.transcriptsDisabled video_id)
      else
        .ok ⟨video_id, maps.1, maps.2, translation_languages⟩

/-- The view of a parsed `url::Url` that `extract_video_id` consumes:
`host_str()`, the decoded `query_pairs()`, and `path_segments()` (which is
`None` for URLs that cannot be a base). -/
structure Url where
  host : Option String
  queryPairs : List (String × String)
  pathSegments : Option (List String)
deriving Repr, DecidableEq

/-- The string handed to `Url::parse` (lines 152-158): the trimmed input,
prefixed with `https://` when it lacks a protocol but mentions
`youtube.com` or `youtu.be`. -/
def urlCandidate (input : String) : String :=
  if rustStartsWith input "http://" || rustStartsWith input "https://" then input
  else if rustContains input "youtube.com" || rustContains input "youtu.be" then
    "https://" ++ input
  else input

/-- Host gate of line 171-175: the host, if any, mentions `youtube.com` or
`youtu.be`. -/
def hostMatches (u : Url) : Bool :=
  ((u.host.map (fun h => rustContains h "youtube.com" || rustContains h "youtu.be"))).getD false

/-- Watch-URL branch (lines 177-190): the first `v` query parameter, if it
passes the validity check. -/
def tryVParam (alnum : Char → Bool) (u : Url) : Option String :=
  match u.queryPairs.find? (fun p => p.1 == "v") with
  | some p => if isValidId11 alnum p.2 then some p.2 else none
  | none => none

/-- Short-URL branch (lines 192-203): host exactly `youtu.be` and a first
path segment passing the validity check. -/
def tryShortUrl (alnum : Char → Bool) (u : Url) : Option String :=
  if u.host == some "youtu.be" then
    match u.pathSegments.bind List.head? with
    | some seg => if isValidId11 alnum seg then some seg else none
    | none => none
  else none

/-- Embed-URL branch (lines 205-217): path `embed/<id>` with `<id>`
passing the validity check. -/
def tryEmbed (alnum : Char → Bool) (u : Url) : Option String :=
  match u.pathSegments with
  | some ("embed" :: seg :: _) => if isValidId11 alnum seg then some seg else none
  | _ => none

/-- The `InvalidVideoId` message of lines 164-167 and 220-223. -/
def invalidIdMsg (url_or_id : String) : String :=
  url_or_id ++ " (YouTube video IDs must be 11 characters, or a valid YouTube URL)"

/-- `YouTubeTranscript::extract_video_id` of `src/lib.rs` (lines 139-224),
parameterized by the external character-class primitives
(`char::is_alphanumeric`, `char::is_whitespace`) and the external `url`
crate parser. -/
def extract_video_id (alnum ws : Char → Bool) (parseUrl : String → Option Url)
    (url_or_id : String) : Except TranscriptError String :=
  let input := rustTrim ws url_or_id
  if isValidId11 alnum input then .ok input
  else
    match parseUrl (urlCandidate input) with
    | none => .error (.invalidVideoId (invalidIdMsg url_or_id))
    | some u =>
      if hostMatches u then
        match (tryVParam alnum u).orElse
            (fun _ => (tryShortUrl alnum u).orElse (fun _ => tryEmbed alnum u)) with
        | some v => .ok v
        | none => .error (.invalidVideoId (invalidIdMsg url_or_id))
      else .error (.invalidVideoId (invalidIdMsg url_or_id))

/-! Concrete example data shared by several witnesses: the catalog of the
`test_transcript_list_find_transcript` unit test of `src/lib.rs`. -/

/-- Example authored English track. -/
def egInfoEn : TranscriptInfo :=
  ⟨"en", "English", false, true, "https://example.com/en", []⟩

/-- Example generated Spanish track. -/
def egInfoEs : TranscriptInfo :=
  ⟨"es", "Spanish", true, false, "https://example.com/es", []⟩

/-- Example catalog: authored `en`, generated `es`. -/
def egList : TranscriptList :=
  ⟨"test", [("en", egInfoEn)], [("es", egInfoEs)], []⟩

/-- Exhausting `firstLookup1` when every candidate misses the map. -/
theorem firstLookup1_eq_none (m : List (String × TranscriptInfo)) :
    ∀ codes : List String, (∀ c ∈ codes, m.lookup c = none) →
    firstLookup1 m codes = none := by
  intro codes
  induction codes with
  | nil => intro _; rfl
  | cons c rest ih =>
    intro h
    have hc := h c (by simp)
    simp only [firstLookup1, hc]
    exact ih (fun x hx => h x (by simp [hx]))

/-- Exhausting `firstLookup2` when every candidate misses both maps. -/
theorem firstLookup2_eq_none (mc gen : List (String × TranscriptInfo)) :
    ∀ codes : List String, (∀ c ∈ codes, mc.lookup c = none) →
    (∀ c ∈ codes, gen.lookup c = none) →
    firstLookup2 mc gen codes = none := by
  intro codes
  induction codes with
  | nil => intro _ _; rfl
  | cons c rest ih =>
    intro hmc hgen
    have hc := hmc c (by simp)
    have hg := hgen c (by simp)
    simp only [firstLookup2, hc, hg]
    exact ih (fun x hx => hmc x (by simp [hx])) (fun x hx => hgen x (by simp [hx]))

/-- C1: `find_transcript` scans the candidate codes in order, consulting
the authored (manually created) map before the generated map for each
candidate; hence an authored track wins over a generated track for the
same code, and an earlier candidate's generated track wins over a later
candidate's authored track. -/
theorem find_transcript_scan_order (self : TranscriptList) (c : String)
    (rest : List String) :
    (∀ t, self.manually_created.lookup c = some t →
      self.find_transcript (c :: rest) = .ok t) ∧
    (∀ t, self.manually_created.lookup c = none →
      self.generated.lookup c = some t →
      self.find_transcript (c :: rest) = .ok t) ∧
    (self.manually_created.lookup c = none →
      self.generated.lookup c = none →
      ∀ t, (self.find_transcript (c :: rest) = .ok t ↔
        self.find_transcript rest = .ok t)) ∧
    (∀ a g, self.manually_created.lookup c = some a →
      self.generated.lookup c = some g →
      self.find_transcript (c :: rest) = .ok a) ∧
    (∀ g c2 rest2 a, rest = c2 :: rest2 →
      self.manually_created.lookup c = none →
      self.generated.lookup c = some g →
      self.manually_created.lookup c2 = some a →
      self.find_transcript (c :: rest) = .ok g) := by
  refine ⟨?_, ?_, ?_, ?_, ?_⟩
  · intro t ht
    simp [TranscriptList.find_transcript, firstLookup2, ht]
  · intro t hmc hgen
    simp [TranscriptList.find_transcript, firstLookup2, hmc, hgen]
  · intro hmc hgen t
    cases h : firstLookup2 self.manually_created self.generated rest <;>
      simp [TranscriptList.find_transcript, firstLookup2, hmc, hgen, h]
  · intro a g ha _
    simp [TranscriptList.find_transcript, firstLookup2, ha]
  · intro g c2 rest2 a _ hmc hgen _
    simp [TranscriptList.find_transcript, firstLookup2, hmc, hgen]

/-- Witness for C1: in the example catalog, candidate list
`["es", "en"]` yields the generated Spanish track even though an authored
English track exists for the later candidate. -/
theorem find_transcript_scan_order_witness :
    egList.find_transcript ["es", "en"] = .ok egInfoEs :=
  (find_transcript_scan_order egList "es" ["en"]).2.2.2.2
    egInfoEs "en" [] egInfoEn rfl rfl rfl rfl

/-- C9: when no candidate code matches, `find_transcript`,
`find_manually_created` and `find_generated` all fail with
`NoTranscriptFound` carrying the catalog's video id and the exact
requested candidate list. -/
theorem find_fail_noTranscriptFound (self : TranscriptList)
    (codes : List String)
    (hmc : ∀ c ∈ codes, self.manually_created.lookup c = none)
    (hgen : ∀ c ∈ codes, self.generated.lookup c = none) :
    self.find_transcript codes =
      .error (.noTranscriptFound self.video_id codes) ∧
    self.find_manually_created codes =
      .error (.noTranscriptFound self.video_id codes) ∧
    self.find_generated codes =
      .error (.noTranscriptFound self.video_id codes) := by
  refine ⟨?_, ?_, ?_⟩
  · simp [TranscriptList.find_transcript,
      firstLookup2_eq_none self.manually_created self.generated codes hmc hgen]
  · simp [TranscriptList.find_manually_created,
      firstLookup1_eq_none self.manually_created codes hmc]
  · simp [TranscriptList.find_generated,
      firstLookup1_eq_none self.generated codes hgen]

/-- Witness for C9: the example catalog with the unmatched candidate list
`["fr"]`. -/
theorem find_fail_noTranscriptFound_witness :
    egList.find_transcript ["fr"] =
      .error (.noTranscriptFound "test" ["fr"]) :=
  (find_fail_noTranscriptFound egList ["fr"]
    (by intro c hc; simp at hc; subst hc; rfl)
    (by intro c hc; simp at hc; subst hc; rfl)).1

/-- C10: with no language-preference list, `fetch_transcript` selects the
track exactly as `find_transcript` with the single-element list
`["en"]`. -/
theorem fetch_default_languages_en (list : TranscriptList) :
    fetchTranscriptSelect list none = list.find_transcript ["en"] := rfl

/-- C8: once `find_transcript` has resolved the source track,
`translate_transcript` fails with `NotTranslatable` when the track is not
translatable, fails with `TranslationLanguageNotAvailable` carrying the
requested target when the target code is absent from the track's
translation-language list, and only otherwise proceeds to fetch with the
translation target set. -/
theorem translate_transcript_gates (video_id : String)
    (list : TranscriptList) (source_languages : List String)
    (target : String) (source : TranscriptInfo)
    (hfind : list.find_transcript source_languages = .ok source) :
    (source.is_translatable = false →
      translateTranscriptSelect video_id list source_languages target =
        .error (.notTranslatable video_id)) ∧
    (source.is_translatable = true →
      source.translation_languages.any
        (fun t => t.language_code == target) = false →
      translateTranscriptSelect video_id list source_languages target =
        .error (.translationLanguageNotAvailable target)) ∧
    (source.is_translatable = true →
      source.translation_languages.any
        (fun t => t.language_code == target) = true →
      translateTranscriptSelect video_id list source_languages target =
        .ok (source, some target)) := by
  refine ⟨?_, ?_, ?_⟩
  · intro h
    simp [translateTranscriptSelect, hfind, h]
  · intro h hany
    simp [translateTranscriptSelect, hfind, h, hany]
  · intro h hany
    simp [translateTranscriptSelect, hfind, h, hany]

/-- Witness for C8: the authored English example track is translatable but
offers no translation languages, so target `de` fails with
`TranslationLanguageNotAvailable "de"`. -/
theorem translate_transcript_gates_witness :
    translateTranscriptSelect "test" egList ["en"] "de" =
      .error (.translationLanguageNotAvailable "de") :=
  (translate_transcript_gates "test" egList ["en"] "de" egInfoEn rfl).2.1 rfl rfl

/-- C3: the playability gate computes exactly the mapping the
specification lists — `assert_playability` written from the code agrees
with `playabilityGateSpec` written from the specification text, on every
video id and every response document. -/
theorem assert_playability_eq_spec (video_id : String)
    (innertube_data : Json) :
    assert_playability video_id innertube_data =
      playabilityGateSpec video_id innertube_data := by
  unfold assert_playability playabilityGateSpec
  cases innertube_data.getKey "playabilityStatus" with
  | none => rfl
  | some ps =>
    simp only []
    generalize (((ps.getKey "status").bind Json.asStr)).getD "" = status
    generalize (((ps.getKey "reason").bind Json.asStr)).getD "" = reason
    by_cases hok : status = "OK"
    · simp [hok]
    · by_cases hlr : status = "LOGIN_REQUIRED"
      · subst hlr
        cases hbot : rustContains reason botPhrase <;>
          cases hage : rustContains reason agePhrase <;>
            simp [hok, hbot, hage]
      · by_cases herr : status = "ERROR"
        · subst herr
          cases hun : rustContains reason "unavailable" <;> simp [hok, hun]
        · simp only [hok, beq_iff_eq, if_neg hok]
          split <;> simp_all

/-- A character of the `[A-Za-z0-9_-]` class occupies one UTF-8 byte. -/
theorem asciiIdChar_utf8Size (c : Char) (h : asciiIdChar c = true) :
    c.utf8Size = 1 := by
  have hv : c.val ≤ 0x7F := by
    simp only [asciiIdChar, Char.isAlphanum, Char.isAlpha, Char.isDigit,
      Char.isUpper, Char.isLower, Bool.or_eq_true, Bool.and_eq_true,
      decide_eq_true_eq, beq_iff_eq] at h
    rcases h with (((⟨_, h2⟩ | ⟨_, h2⟩) | ⟨_, h2⟩) | h1) | h1
    · exact UInt32.le_trans h2 (by decide)
    · exact UInt32.le_trans h2 (by decide)
    · exact UInt32.le_trans h2 (by decide)
    · subst h1; decide
    · subst h1; decide
  have hv2 : c.val ≤ UInt32.ofNatCore 127 Char.utf8Size.proof_1 := hv
  unfold Char.utf8Size
  change (if c.val ≤ UInt32.ofNatCore 127 Char.utf8Size.proof_1 then 1
    else if c.val ≤ UInt32.ofNatCore 2047 Char.utf8Size.proof_2 then 2
    else if c.val ≤ UInt32.ofNatCore 65535 Char.utf8Size.proof_3 then 3 else 4) = 1
  rw [if_pos hv2]

/-- A list of one-byte characters has as many UTF-8 bytes as members. -/
theorem utf8Len_ascii : ∀ l : List Char, (∀ c ∈ l, c.utf8Size = 1) →
    String.utf8Len l = l.length
  | [], _ => rfl
  | c :: cs, h => by
    simp [utf8Len_ascii cs (fun x hx => h x (by simp [hx])), h c (by simp)]

/-- On a string over `[A-Za-z0-9_-]`, byte count equals character count. -/
theorem utf8ByteSize_eq_length (s : String)
    (h : ∀ c ∈ s.data, asciiIdChar c = true) : s.utf8ByteSize = s.length := by
  cases s with
  | mk l =>
    have hl : String.utf8Len l = l.length :=
      utf8Len_ascii l (fun c hc => asciiIdChar_utf8Size c (h c hc))
    simpa using hl

/-- `dropWhile` is the identity on a list with no satisfying element. -/
theorem dropWhile_eq_self_of_none {p : Char → Bool} {l : List Char}
    (h : ∀ c ∈ l, p c = false) : l.dropWhile p = l := by
  cases l with
  | nil => rfl
  | cons a t => simp [List.dropWhile_cons, h a (by simp)]

/-- `rustTrim` is the identity on a string none of whose characters the
whitespace predicate accepts. -/
theorem rustTrim_eq_self {ws : Char → Bool} {s : String}
    (h : ∀ c ∈ s.data, ws c = false) : rustTrim ws s = s := by
  unfold rustTrim
  rw [dropWhile_eq_self_of_none h,
    dropWhile_eq_self_of_none (fun c hc => h c (List.mem_reverse.mp hc)),
    List.reverse_reverse]

/-- C5: every 11-character string over `[A-Za-z0-9_-]` is accepted
verbatim by `extract_video_id`, whatever the URL parser does, and for
every alphanumeric and whitespace classification that behaves like the
Rust Unicode tables on the characters of the string (its alphanumerics
are accepted, none of its characters is whitespace) — in particular for
the Unicode tables themselves. -/
theorem extract_video_id_accepts_valid11 (alnum ws : Char → Bool)
    (parseUrl : String → Option Url) (s : String)
    (hlen : s.length = 11)
    (hchars : ∀ c ∈ s.data, asciiIdChar c = true)
    (halnum : ∀ c ∈ s.data, c.isAlphanum = true → alnum c = true)
    (hws : ∀ c ∈ s.data, ws c = false) :
    extract_video_id alnum ws parseUrl s = .ok s := by
  have hbytes : s.utf8ByteSize = 11 := by
    rw [utf8ByteSize_eq_length s hchars, hlen]
  have hvalid : isValidId11 alnum s = true := by
    simp only [isValidId11, hbytes, beq_self_eq_true, Bool.true_and,
      List.all_eq_true]
    intro c hc
    have h1 := hchars c hc
    simp only [asciiIdChar, Bool.or_eq_true, beq_iff_eq] at h1
    simp only [isValidIdChar, Bool.or_eq_true, beq_iff_eq]
    rcases h1 with (h1 | h1) | h1
    · exact Or.inl (Or.inl (halnum c hc h1))
    · exact Or.inl (Or.inr h1)
    · exact Or.inr h1
  have htrim : rustTrim ws s = s := rustTrim_eq_self hws
  unfold extract_video_id
  simp [htrim, hvalid]

/-- Witness for C5 at the id of the unit tests (an ASCII input, so the
ASCII restrictions instantiate the program predicates exactly). -/
theorem extract_video_id_accepts_valid11_witness :
    extract_video_id asciiAlnum asciiWs (fun _ => none) "dQw4w9WgXcQ" =
      .ok "dQw4w9WgXcQ" :=
  extract_video_id_accepts_valid11 asciiAlnum asciiWs (fun _ => none)
    "dQw4w9WgXcQ" (by decide) (by decide) (by decide) (by decide)

/-- Counterexample to C4 as stated: the input `"dQw4w9WgXcQ "` (trailing
blank) is not an 11-character string over the id alphabet, and is no
parseable URL (the parser at hand returns `none` on every input, as
`url::Url::parse` does on schemeless text), yet `extract_video_id`
ACCEPTS it, because the code trims the input before the length check.
Every character involved is ASCII, where `asciiAlnum`/`asciiWs` agree
with the Rust Unicode predicates, so this is the program behaviour. -/
theorem extract_video_id_untrimmed_cex :
    asciiId11 "dQw4w9WgXcQ " = false ∧
    (fun _ : String => (none : Option Url)) "dQw4w9WgXcQ " = none ∧
    extract_video_id asciiAlnum asciiWs (fun _ => none) "dQw4w9WgXcQ " =
      .ok "dQw4w9WgXcQ" :=
  ⟨by decide, rfl, rfl⟩

/-- C4 (amended): for every input whose TRIMMED form fails the validity
check of the code (11 UTF-8 bytes and every character alphanumeric, `-`
or `_`) and for which the URL branch yields nothing, `extract_video_id`
fails with `InvalidVideoId` carrying a message that contains the
original input.  Quantified over the alphanumeric and whitespace
classifications, so it holds in particular for the Unicode tables the
program uses. -/
theorem extract_video_id_rejects (alnum ws : Char → Bool)
    (parseUrl : String → Option Url) (input : String)
    (h11 : isValidId11 alnum (rustTrim ws input) = false)
    (hurl : ∀ u, parseUrl (urlCandidate (rustTrim ws input)) = some u →
      hostMatches u = true →
      tryVParam alnum u = none ∧ tryShortUrl alnum u = none ∧
        tryEmbed alnum u = none) :
    extract_video_id alnum ws parseUrl input =
      .error (.invalidVideoId (invalidIdMsg input)) := by
  cases hp : parseUrl (urlCandidate (rustTrim ws input)) with
  | none => simp [extract_video_id, h11, hp]
  | some u =>
    cases hm : hostMatches u with
    | false => simp [extract_video_id, h11, hp, hm]
    | true =>
      obtain ⟨h1, h2, h3⟩ := hurl u hp hm
      simp [extract_video_id, h11, hp, hm, h1, h2, h3, Option.orElse]

/-- Witness for amended C4: the rejected input of the unit tests. -/
theorem extract_video_id_rejects_witness :
    extract_video_id asciiAlnum asciiWs (fun _ => none) "not-a-valid-id" =
      .error (.invalidVideoId (invalidIdMsg "not-a-valid-id")) :=
  extract_video_id_rejects asciiAlnum asciiWs (fun _ => none)
    "not-a-valid-id" (by decide) (fun u hu => by simp at hu)

/-- The parse the `url` crate performs on
`https://youtu.be/abcdefghijk?v=ABCDEFGHIJK`: host `youtu.be`, decoded
query pairs `[("v", "ABCDEFGHIJK")]`, path segments `["abcdefghijk"]`. -/
def youtuBeCexParse : String → Option Url := fun s =>
  if s = "https://youtu.be/abcdefghijk?v=ABCDEFGHIJK" then
    some ⟨some "youtu.be", [("v", "ABCDEFGHIJK")], some ["abcdefghijk"]⟩
  else none

/-- Counterexample to C6 as stated: on a parseable URL with host exactly
`youtu.be` whose first path segment is 11 valid characters, the code
nevertheless returns the `v` query parameter — the `v` parameter is
consulted for EVERY youtube.com/youtu.be host, before the youtu.be path
branch, not only for youtube.com hosts.  Every character involved is
ASCII, where `asciiAlnum`/`asciiWs` agree with the Rust Unicode
predicates, so this is the program behaviour. -/
theorem extract_video_id_v_beats_path_cex :
    (youtuBeCexParse "https://youtu.be/abcdefghijk?v=ABCDEFGHIJK").map Url.host =
      some (some "youtu.be") ∧
    asciiId11 "abcdefghijk" = true ∧
    extract_video_id asciiAlnum asciiWs youtuBeCexParse
        "https://youtu.be/abcdefghijk?v=ABCDEFGHIJK" = .ok "ABCDEFGHIJK" :=
  ⟨rfl, by decide, rfl⟩

/-- C6 (amended): for every parseable URL whose host is exactly
`youtu.be` and which carries no `v` query parameter passing the
validity check of the code, `extract_video_id` returns the first path
segment whenever that segment passes the check.  (The `v` parameter is
consulted for every youtube.com/youtu.be host, so its absence is
required here.)  Quantified over the alphanumeric and whitespace
classifications, so it holds in particular for the Unicode tables the
program uses. -/
theorem extract_video_id_youtu_be (alnum ws : Char → Bool)
    (parseUrl : String → Option Url)
    (input : String) (u : Url) (seg : String)
    (h11 : isValidId11 alnum (rustTrim ws input) = false)
    (hp : parseUrl (urlCandidate (rustTrim ws input)) = some u)
    (hhost : u.host = some "youtu.be")
    (hv : tryVParam alnum u = none)
    (hseg : u.pathSegments.bind List.head? = some seg)
    (hvalid : isValidId11 alnum seg = true) :
    extract_video_id alnum ws parseUrl input = .ok seg := by
  have hm : hostMatches u = true := by
    simp only [hostMatches, hhost, Option.map_some, Option.getD_some]
    decide
  have hs : tryShortUrl alnum u = some seg := by
    simp [tryShortUrl, hhost, hseg, hvalid]
  simp [extract_video_id, h11, hp, hm, hv, hs, Option.orElse]

/-- The parse of `https://youtu.be/dQw4w9WgXcQ`: host `youtu.be`, no
query, one path segment. -/
def youtuBeWitnessParse : String → Option Url := fun s =>
  if s = "https://youtu.be/dQw4w9WgXcQ" then
    some ⟨some "youtu.be", [], some ["dQw4w9WgXcQ"]⟩
  else none

/-- Witness for amended C6: the short URL of the unit tests. -/
theorem extract_video_id_youtu_be_witness :
    extract_video_id asciiAlnum asciiWs youtuBeWitnessParse
      "https://youtu.be/dQw4w9WgXcQ" = .ok "dQw4w9WgXcQ" :=
  extract_video_id_youtu_be asciiAlnum asciiWs youtuBeWitnessParse
    "https://youtu.be/dQw4w9WgXcQ"
    ⟨some "youtu.be", [], some ["dQw4w9WgXcQ"]⟩ "dQw4w9WgXcQ"
    (by decide) rfl rfl rfl rfl (by decide)

/-- C7: once the playability gate passes, catalog extraction fails with
`TranscriptsDisabled` exactly when the captions tracklist node is absent
or the caption-track loop leaves both maps empty; and a successfully
returned catalog never has both maps empty. -/
theorem extract_captions_disabled_iff (video_id : String) (data : Json)
    (hp : assert_playability video_id data = .ok ()) :
    (extract_captions_json video_id data =
        .error (.transcriptsDisabled video_id) ↔
      captionsRenderer data = none ∨
      ∃ cj, captionsRenderer data = some cj ∧
        (buildTrackMaps (extractTranslationLanguages cj) (captionTracksOf cj)).1 = [] ∧
        (buildTrackMaps (extractTranslationLanguages cj) (captionTracksOf cj)).2 = []) ∧
    (∀ list, extract_captions_json video_id data = .ok list →
      (list.manually_created ≠ [] ∨ list.generated ≠ [])) := by
  have hbody : extract_captions_json video_id data =
      (match captionsRenderer data with
      | none => .error (.transcriptsDisabled video_id)
      | some cj =>
        if (buildTrackMaps (extractTranslationLanguages cj) (captionTracksOf cj)).1.isEmpty &&
            (buildTrackMaps (extractTranslationLanguages cj) (captionTracksOf cj)).2.isEmpty then
          .error (.transcriptsDisabled video_id)
        else
          .ok ⟨video_id,
            (buildTrackMaps (extractTranslationLanguages cj) (captionTracksOf cj)).1,
            (buildTrackMaps (extractTranslationLanguages cj) (captionTracksOf cj)).2,
            extractTranslationLanguages cj⟩) := by
    unfold extract_captions_json
    rw [hp]
  constructor
  · rw [hbody]
    cases hc : captionsRenderer data with
    | none => simp
    | some cj =>
      by_cases he :
          ((buildTrackMaps (extractTranslationLanguages cj) (captionTracksOf cj)).1.isEmpty &&
           (buildTrackMaps (extractTranslationLanguages cj) (captionTracksOf cj)).2.isEmpty) = true
      · simp only [he, if_true]
        constructor
        · intro _
          rw [Bool.and_eq_true, List.isEmpty_iff, List.isEmpty_iff] at he
          exact Or.inr ⟨cj, rfl, he.1, he.2⟩
        · intro _; trivial
      · simp only [if_neg he]
        constructor
        · intro h; cases h
        · rintro (h | ⟨cj', hcj', h1, h2⟩)
          · cases h
          · injection hcj' with hh
            subst hh
            refine absurd ?_ he
            rw [Bool.and_eq_true, List.isEmpty_iff, List.isEmpty_iff]
            exact ⟨h1, h2⟩
  · intro list hok
    rw [hbody] at hok
    cases hc : captionsRenderer data with
    | none => rw [hc] at hok; cases hok
    | some cj =>
      rw [hc] at hok
      by_cases he :
          ((buildTrackMaps (extractTranslationLanguages cj) (captionTracksOf cj)).1.isEmpty &&
           (buildTrackMaps (extractTranslationLanguages cj) (captionTracksOf cj)).2.isEmpty) = true
      · simp only [if_pos he] at hok; cases hok
      · simp only [if_neg he] at hok
        injection hok with hh
        subst hh
        by_cases h1 : (buildTrackMaps (extractTranslationLanguages cj) (captionTracksOf cj)).1 = []
        · refine Or.inr (fun h2 => he ?_)
          rw [Bool.and_eq_true, List.isEmpty_iff, List.isEmpty_iff]
          exact ⟨h1, h2⟩
        · exact Or.inl h1

/-- Witness for C7: a response with no `captions` section (and no
playability block, so the gate passes) fails with `TranscriptsDisabled`. -/
theorem extract_captions_disabled_iff_witness :
    extract_captions_json "vid" (Json.obj []) =
      .error (.transcriptsDisabled "vid") :=
  ((extract_captions_disabled_iff "vid" (Json.obj []) rfl).1).mpr (Or.inl rfl)

/-- The innertube response used against C2: the upstream offers BOTH a
generated (`kind: asr`) and an authored caption track for the same
language code `en`. -/
def dualTrackData : Json :=
  Json.obj [("captions", Json.obj [("playerCaptionsTracklistRenderer",
    Json.obj [("captionTracks", Json.arr [
      Json.obj [("languageCode", Json.str "en"),
                ("baseUrl", Json.str "http://u1"), ("kind", Json.str "asr")],
      Json.obj [("languageCode", Json.str "en"),
                ("baseUrl", Json.str "http://u2")]])])])]

/-- Counterexample to C2 as stated: extraction of `dualTrackData`
succeeds and the resulting catalog has `en` as a key of BOTH the manually
created and the generated map — the two tracks land in different maps and
both are retained, so a code is not confined to at most one mapping. -/
theorem extract_captions_both_maps_cex :
    (extract_captions_json "vid" dualTrackData).toOption.map
      (fun l => ((l.manually_created.lookup "en").isSome,
                 (l.generated.lookup "en").isSome)) = some (true, true) := rfl

/-- `insertMap` keeps the keys of the map free of duplicates. -/
theorem insertMap_keys_nodup (m : List (String × TranscriptInfo))
    (k : String) (v : TranscriptInfo) (h : (m.map Prod.fst).Nodup) :
    ((insertMap m k v).map Prod.fst).Nodup := by
  unfold insertMap
  rw [List.map_cons, List.nodup_cons]
  constructor
  · intro hmem
    rw [List.mem_map] at hmem
    obtain ⟨p, hp, hk⟩ := hmem
    rw [List.mem_filter] at hp
    have h2 := hp.2
    simp only [Bool.not_eq_eq_eq_not, Bool.not_true, beq_eq_false_iff_ne] at h2
    exact h2 hk
  · exact h.sublist ((List.filter_sublist m).map Prod.fst)

/-- The caption-track loop keeps both key lists free of duplicates. -/
theorem foldl_trackStep_nodup (tl : List TranslationLanguage)
    (tracks : List Json) :
    ∀ maps : List (String × TranscriptInfo) × List (String × TranscriptInfo),
    (maps.1.map Prod.fst).Nodup → (maps.2.map Prod.fst).Nodup →
    ((tracks.foldl (trackStep tl) maps).1.map Prod.fst).Nodup ∧
    ((tracks.foldl (trackStep tl) maps).2.map Prod.fst).Nodup := by
  induction tracks with
  | nil => intro maps h1 h2; exact ⟨h1, h2⟩
  | cons t rest ih =>
    intro maps h1 h2
    rw [List.foldl_cons]
    apply ih
    · unfold trackStep
      cases hpt : parseCaptionTrack tl t with
      | none => exact h1
      | some info =>
        cases hg : info.is_generated
        · simpa [hg] using insertMap_keys_nodup maps.1 info.language_code info h1
        · simpa [hg] using h1
    · unfold trackStep
      cases hpt : parseCaptionTrack tl t with
      | none => exact h2
      | some info =>
        cases hg : info.is_generated
        · simpa [hg] using h2
        · simpa [hg] using insertMap_keys_nodup maps.2 info.language_code info h2

/-- C2 (amended): in every catalog produced by `extract_captions_json`,
each language code appears at most once WITHIN each single mapping (the
key lists of both maps are duplicate-free); a code may however be a key
of both mappings at once, when the upstream response carries both an
authored and a generated track for it. -/
theorem extract_captions_keys_nodup (video_id : String) (data : Json)
    (list : TranscriptList)
    (hok : extract_captions_json video_id data = .ok list) :
    (list.manually_created.map Prod.fst).Nodup ∧
    (list.generated.map Prod.fst).Nodup := by
  unfold extract_captions_json at hok
  cases hp : assert_playability video_id data with
  | error e => rw [hp] at hok; cases hok
  | ok u =>
    rw [hp] at hok
    cases hc : captionsRenderer data with
    | none => rw [hc] at hok; cases hok
    | some cj =>
      rw [hc] at hok
      by_cases he :
          ((buildTrackMaps (extractTranslationLanguages cj) (captionTracksOf cj)).1.isEmpty &&
           (buildTrackMaps (extractTranslationLanguages cj) (captionTracksOf cj)).2.isEmpty) = true
      · simp only [if_pos he] at hok; cases hok
      · simp only [if_neg he] at hok
        injection hok with hh
        subst hh
        exact foldl_trackStep_nodup (extractTranslationLanguages cj)
          (captionTracksOf cj) ([], []) (by simp) (by simp)

/-- The catalog `extract_captions_json` builds from `dualTrackData`. -/
def dualTrackList : TranscriptList :=
  ⟨"vid",
   [("en", ⟨"en", "en", false, false, "http://u2", []⟩)],
   [("en", ⟨"en", "en", true, false, "http://u1", []⟩)],
   []⟩

/-- Witness for amended C2 on the extracted dual-track catalog. -/
theorem extract_captions_keys_nodup_witness :
    (dualTrackList.manually_created.map Prod.fst).Nodup ∧
    (dualTrackList.generated.map Prod.fst).Nodup :=
  extract_captions_keys_nodup "vid" dualTrackData dualTrackList rfl
